import Mathlib

/-!
Verification development for the AJAXForm client class (src/index.js).

The class intercepts form submissions, serializes the form, issues a fetch
request (GET with a query string, or POST with the form data as body),
normalizes the JSON response into an APIResponse envelope, and then either
navigates to envelope.info.next or renders envelope.messages into the
message list element.

Shallow embedding notes:
  - DOM nodes are modelled by the inductive DomNode; the message list is
    modelled by the list of its child nodes (Option, since the list element
    may be absent).
  - The browser reflection of the HTMLFormElement method IDL attribute is
    modelled by formMethod: the content attribute is matched ASCII
    case-insensitively against the known keywords get, post, dialog, and any
    other (or missing) value defaults to get, per the HTML standard.
  - URLSearchParams.toString is modelled by serializeParams, the
    application/x-www-form-urlencoded serializer of the URL standard.
  - The fetch transport and JSON parsing are modelled by a FetchResult
    parameter: ok with the parsed envelope, or failed (rejection or invalid
    JSON body).
  - submit is a total Lean function, reflecting that the source catches all
    transport and parse errors and never throws to its caller.
-/

/-- Message of a response envelope: a code and a human readable text. -/
structure Message where
  code : String
  message : String
deriving DecidableEq, Repr

/-- Info part of a response envelope; next is the optional redirect URL
(none models both null and absent). -/
structure Info where
  next : Option String
deriving DecidableEq, Repr

/-- Modelled from the spec: the response envelope class APIResponse of the
external package custom-api-classes, exposing success, info and the ordered
message list. -/
structure APIResponse where
  success : Bool
  info : Info
  messages : List Message
deriving DecidableEq, Repr

/-- Modelled from the spec: constructing an APIResponse with no argument
(the catch branch of submit) yields a failure envelope with empty info and
no messages. -/
def APIResponse.empty : APIResponse :=
  { success := false, info := { next := none }, messages := [] }

/-- Modelled from the spec: APIResponse.addMessage appends one message to
the ordered message list. -/
def APIResponse.addMessage (r : APIResponse) (m : Message) : APIResponse :=
  { r with messages := r.messages ++ [m] }

/-- DOM node: a text node or an element with a tag, CSS classes and
children. -/
inductive DomNode where
  | text (s : String)
  | element (tag : String) (classes : List String) (children : List DomNode)

/-- Form state read by submit: the method content attribute (none when
absent), the action URL, the FormData entries in order, and the
data-credentials-mode attribute (none when absent). -/
structure FormState where
  methodAttr : Option String
  action : String
  fields : List (String × String)
  credentialsModeAttr : Option String

/-- Request issued by submit: URL, HTTP method, credentials mode, and the
optional body (the FormData entries for the POST branch). -/
structure Request where
  url : String
  method : String
  credentials : String
  body : Option (List (String × String))
deriving DecidableEq, Repr

/-- Outcome of the fetch plus response.json() step: the parsed envelope, or
a failure (network rejection, timeout, or a body that is not valid JSON). -/
inductive FetchResult where
  | ok (response : APIResponse)
  | failed

namespace AJAXForm

/-- Static field defaultCredentialsMode of the source class. -/
def defaultCredentialsMode : String := "same-origin"

/-- Static field successCSSClass of the source class. -/
def successCSSClass : String := "success"

/-- Static field errorCSSClass of the source class. -/
def errorCSSClass : String := "error"

/-- Fixed text of the synthetic API_ERROR message in the catch branch of
submit. -/
def apiErrorText : String :=
  "Failed to contact the API endpoint used by this form. Please try again later."

end AJAXForm

/-- ASCII lowercasing of one character, as used by ASCII case-insensitive
attribute keyword matching in the HTML standard. -/
def lowerChar (c : Char) : Char :=
  if 65 ≤ c.toNat ∧ c.toNat ≤ 90 then Char.ofNat (c.toNat + 32) else c

/-- ASCII lowercasing of a string. -/
def lowerString (s : String) : String :=
  String.mk (s.toList.map lowerChar)

/-- Browser reflection of the HTMLFormElement method IDL attribute, read by
submit as this.form.method: the content attribute is matched ASCII
case-insensitively against the keywords get, post and dialog; a missing or
invalid value defaults to get (HTML standard, limited to only known
values). -/
def formMethod (attr : Option String) : String :=
  match attr with
  | none => "get"
  | some m =>
    if lowerString m = "get" then "get"
    else if lowerString m = "post" then "post"
    else if lowerString m = "dialog" then "dialog"
    else "get"

/-- Hexadecimal digit (uppercase) of a value below 16, for percent
encoding. -/
def hexDigit (n : Nat) : Char :=
  if n < 10 then Char.ofNat (48 + n) else Char.ofNat (55 + n)

/-- UTF-8 bytes of one character. -/
def utf8Bytes (c : Char) : List Nat :=
  let n := c.toNat
  if n < 128 then [n]
  else if n < 2048 then [192 + n / 64, 128 + n % 64]
  else if n < 65536 then [224 + n / 4096, 128 + (n / 64) % 64, 128 + n % 64]
  else [240 + n / 262144, 128 + (n / 4096) % 64, 128 + (n / 64) % 64, 128 + n % 64]

/-- Bytes left unescaped by the application/x-www-form-urlencoded
serializer: ASCII alphanumerics and asterisk, hyphen, period,
underscore. -/
def isUrlencodedSafe (b : Nat) : Bool :=
  b == 42 || b == 45 || b == 46 || (48 ≤ b && b ≤ 57) ||
    (65 ≤ b && b ≤ 90) || b == 95 || (97 ≤ b && b ≤ 122)

/-- Encoding of one byte under application/x-www-form-urlencoded: space
becomes plus, safe bytes stay, the rest are percent encoded. -/
def encodeByte (b : Nat) : String :=
  if b == 32 then "+"
  else if isUrlencodedSafe b then String.singleton (Char.ofNat b)
  else String.mk ['%', hexDigit (b / 16), hexDigit (b % 16)]

/-- Percent encoding of a string under application/x-www-form-urlencoded. -/
def urlencode (s : String) : String :=
  String.join (s.toList.map (fun c => String.join ((utf8Bytes c).map encodeByte)))

/-- Model of URLSearchParams(entries).toString(): each name=value pair
urlencoded and the pairs joined with ampersands. -/
def serializeParams (params : List (String × String)) : String :=
  String.intercalate "&" (params.map (fun p => urlencode p.1 ++ "=" ++ urlencode p.2))

/-- Request built by the try block of submit (src/index.js lines 139-157):
the GET branch appends the serialized fields to the action URL and sends no
body, the POST branch sends the action URL with the FormData as body; both
resolve the credentials mode from the data attribute with the static
default as fallback. When the reflected method is neither get nor post
(that is, dialog), neither branch runs and no request is issued (none). -/
def submitRequest (form : FormState) : Option Request :=
  if formMethod form.methodAttr = "get" then
    some { url := form.action ++ "?" ++ serializeParams form.fields,
           method := "GET",
           credentials := form.credentialsModeAttr.getD AJAXForm.defaultCredentialsMode,
           body := none }
  else if formMethod form.methodAttr = "post" then
    some { url := form.action,
           method := "POST",
           credentials := form.credentialsModeAttr.getD AJAXForm.defaultCredentialsMode,
           body := some form.fields }
  else
    none

/-- Synthetic failure envelope built in the catch branch of submit
(src/index.js lines 163-174): a fresh APIResponse with one API_ERROR
message added. -/
def apiErrorResponse : APIResponse :=
  APIResponse.empty.addMessage
    { code := "API_ERROR", message := AJAXForm.apiErrorText }

/-- Envelope that submit ends up with after the try/catch: when no request
was issued (rawResponse stays undefined and rawResponse.json() throws) or
the fetch/parse failed, the catch branch builds the synthetic envelope;
otherwise the parsed envelope is used. -/
def resolveResponse (req : Option Request) (fetchResult : FetchResult) : APIResponse :=
  match req with
  | none => apiErrorResponse
  | some _ =>
    match fetchResult with
    | .ok response => response
    | .failed => apiErrorResponse

/-- Envelope submit passes to afterSubmit and to the post-processing, as a
function of the form and of the transport outcome. -/
def submitResponse (form : FormState) (fetchResult : FetchResult) : APIResponse :=
  resolveResponse (submitRequest form) fetchResult

/-- Substring test on character lists: does the pattern occur starting at
the head. -/
def listStartsWith : List Char → List Char → Bool
  | [], _ => true
  | _ :: _, [] => false
  | p :: ps, c :: cs => p == c && listStartsWith ps cs

/-- Substring test on character lists: does the pattern occur anywhere. -/
def listContainsSub (pat : List Char) : List Char → Bool
  | [] => listStartsWith pat []
  | c :: cs => listStartsWith pat (c :: cs) || listContainsSub pat cs

/-- Model of the static successCodeRegExp test: the unanchored regular
expression SUCCESS_(.*) accepts a code exactly when SUCCESS_ occurs in it
as a substring (the capture group matches any remainder, possibly
empty). -/
def successCodeTest (code : String) : Bool :=
  listContainsSub "SUCCESS_".toList code.toList

/-- Modelled from the spec: removeAllChildren of the external package
document-utilities clears all child content of a container. -/
def removeAllChildren (_children : List DomNode) : List DomNode := []

/-- List item built for one message (src/index.js lines 212-216): an li
element classed success or error by the successCodeRegExp test on the code,
whose single child is a text node created by document.createTextNode
holding the interpolated string. -/
def renderMessage (m : Message) : DomNode :=
  DomNode.element "li"
    [if successCodeTest m.code then AJAXForm.successCSSClass else AJAXForm.errorCSSClass]
    [DomNode.text ("[" ++ m.code ++ "] " ++ m.message)]

/-- Message rendering block of submit (src/index.js lines 206-218) applied
to the children of the message list: clear all existing children, then
append one list item per message, in order. -/
def clearThenRender (messages : List Message) (children : List DomNode) : List DomNode :=
  messages.foldl (fun acc m => acc ++ [renderMessage m]) (removeAllChildren children)

/-- Observable outcome of one submit call: the URL navigated to via
window.location (none when no navigation happens) and the children of the
message list afterwards (none when the form has no message list). -/
structure SubmitOutcome where
  navigatedTo : Option String
  messageListAfter : Option (List DomNode)

/-- Post-processing of submit after the envelope is resolved (src/index.js
lines 182-218): stop when afterSubmit signalled falsy; else navigate to
info.next when the envelope is successful and info.next is not null; else
render the messages into the message list when one is present. -/
def postProcess (response : APIResponse) (shouldContinue : Bool)
    (messageList : Option (List DomNode)) : SubmitOutcome :=
  if !shouldContinue then
    { navigatedTo := none, messageListAfter := messageList }
  else if response.success && response.info.next.isSome then
    { navigatedTo := response.info.next, messageListAfter := messageList }
  else
    match messageList with
    | none => { navigatedTo := none, messageListAfter := none }
    | some children =>
      { navigatedTo := none,
        messageListAfter := some (clearThenRender response.messages children) }

/-- Default afterSubmit hook of the base class: always continue. -/
def afterSubmit (_response : APIResponse) : Bool := true

/-- Whole submit routine: build and issue the request, resolve the envelope
through the try/catch, then post-process with the hook result. The
transport outcome and the hook result are parameters of the embedding. -/
def submit (form : FormState) (messageList : Option (List DomNode))
    (fetchResult : FetchResult) (shouldContinue : Bool) : SubmitOutcome :=
  postProcess (submitResponse form fetchResult) shouldContinue messageList

/-- Helper: the render loop of submit, which clears the list and then
appends one item per message by folding over the messages, produces exactly
the map of renderMessage over the messages, in order. -/
theorem clearThenRender_eq_map (msgs : List Message) (children : List DomNode) :
    clearThenRender msgs children = msgs.map renderMessage := by
  have hgen : ∀ (ms : List Message) (acc : List DomNode),
      ms.foldl (fun acc m => acc ++ [renderMessage m]) acc = acc ++ ms.map renderMessage := by
    intro ms
    induction ms with
    | nil => intro acc; simp
    | cons m ms ih => intro acc; simp [ih]
  unfold clearThenRender removeAllChildren
  simpa using hgen msgs []

/-- Concrete form with method attribute PUT, used to refute claim C1. -/
def c1Form : FormState :=
  { methodAttr := some "PUT", action := "/api", fields := [("x", "1")],
    credentialsModeAttr := none }

/-- C1 counterexample: a form whose method attribute is PUT (neither GET
nor POST) is NOT treated as the POST case. The browser reflection of the
method IDL attribute normalizes the invalid value PUT to get, so submit
takes the GET branch: the issued request has method GET, carries no body,
and its URL is not the bare action URL with the payload as body, contrary
to the claim. -/
theorem C1_counterexample :
    (submitRequest c1Form).map Request.method = some "GET" ∧
    (submitRequest c1Form).map Request.body = some none ∧
    ¬ submitRequest c1Form =
        some { url := c1Form.action, method := "POST",
               credentials := "same-origin", body := some c1Form.fields } := by
  refine ⟨rfl, rfl, ?_⟩
  decide

/-- C1 amended: for every form whose method attribute is neither GET nor
POST (ASCII case-insensitively), submit treats it as the GET case, not the
POST case: the reflected method defaults to get and the request goes to
the action URL with the serialized fields appended as a query string and
no body. The one exception is a method attribute of dialog, the only other
known keyword of the method attribute: then neither fetch branch runs, no
request is issued, and submit ends up with the synthetic API_ERROR
envelope. -/
theorem C1_amended (form : FormState) (m : String) (hm : form.methodAttr = some m)
    (hget : lowerString m ≠ "get") (hpost : lowerString m ≠ "post") :
    (lowerString m ≠ "dialog" →
      submitRequest form =
        some { url := form.action ++ "?" ++ serializeParams form.fields,
               method := "GET",
               credentials := form.credentialsModeAttr.getD AJAXForm.defaultCredentialsMode,
               body := none }) ∧
    (lowerString m = "dialog" →
      submitRequest form = none ∧
      ∀ fetchResult, submitResponse form fetchResult = apiErrorResponse) := by
  have hfm : formMethod form.methodAttr =
      if lowerString m = "dialog" then "dialog" else "get" := by
    rw [hm]; simp only [formMethod]; rw [if_neg hget, if_neg hpost]
  constructor
  · intro hd
    have hg : formMethod form.methodAttr = "get" := by rw [hfm, if_neg hd]
    unfold submitRequest
    rw [hg, if_pos rfl]
  · intro hd
    have hdl : formMethod form.methodAttr = "dialog" := by rw [hfm, if_pos hd]
    have hnone : submitRequest form = none := by
      unfold submitRequest
      rw [hdl, if_neg (by decide), if_neg (by decide)]
    refine ⟨hnone, fun fetchResult => ?_⟩
    unfold submitResponse
    rw [hnone]
    rfl

/-- C1 amended, witnessed at the concrete PUT form: the request is a GET to
/api?x=1 with no body. -/
theorem C1_amended_witness :
    c1Form.methodAttr = some "PUT" ∧
    lowerString "PUT" ≠ "get" ∧ lowerString "PUT" ≠ "post" ∧ lowerString "PUT" ≠ "dialog" ∧
    submitRequest c1Form =
      some { url := "/api?x=1", method := "GET", credentials := "same-origin", body := none } :=
  ⟨rfl, by decide, by decide, by decide,
    (C1_amended c1Form "PUT" rfl (by decide) (by decide)).1 (by decide)⟩

/-- C2: for every form, when the network request rejects or the response
body is not valid JSON (FetchResult.failed), submit recovers locally (the
embedding of submit is a total function, so nothing is thrown to the
caller) and ends up with the synthetic envelope: success is false, info is
empty, and the message list holds exactly one message with code API_ERROR
and the fixed retry-later text. -/
theorem C2_failure_envelope (form : FormState) :
    submitResponse form FetchResult.failed = apiErrorResponse ∧
    apiErrorResponse.success = false ∧
    apiErrorResponse.info = { next := none } ∧
    apiErrorResponse.messages = [{ code := "API_ERROR", message := AJAXForm.apiErrorText }] := by
  refine ⟨?_, rfl, rfl, rfl⟩
  unfold submitResponse
  cases hr : submitRequest form <;> rfl

/-- C3: for every envelope and every prior content of the message list,
when the hook signals continue and the navigation condition does not hold
and the message list is present, the post-processing does not navigate,
removes all prior children, and appends exactly one list item per message
in the order of the envelope, each item carrying the text built from the
code and the message and classed with the success style exactly when the
code matches the success pattern and with the error style otherwise. -/
theorem C3_render_messages (response : APIResponse) (children : List DomNode)
    (hnav : response.success = false ∨ response.info.next = none) :
    postProcess response true (some children) =
      { navigatedTo := none,
        messageListAfter := some (response.messages.map (fun m =>
          DomNode.element "li"
            [if successCodeTest m.code then AJAXForm.successCSSClass else AJAXForm.errorCSSClass]
            [DomNode.text ("[" ++ m.code ++ "] " ++ m.message)])) } := by
  have hcond : (response.success && response.info.next.isSome) = false := by
    cases hnav with
    | inl h => simp [h]
    | inr h => simp [h]
  unfold postProcess
  simp only [Bool.not_true, Bool.false_eq_true, if_false, hcond]
  rw [clearThenRender_eq_map]
  rfl

/-- Concrete failure envelope with one success-coded and one error-coded
message, for the C3 witness. -/
def c3Response : APIResponse :=
  { success := false, info := { next := none },
    messages := [{ code := "SUCCESS_SAVED", message := "Saved" },
                 { code := "VALIDATION_NAME", message := "Required" }] }

/-- C3 witnessed at a concrete envelope: the prior child is removed and the
two messages are rendered in order, the SUCCESS_SAVED one with the success
class and the VALIDATION_NAME one with the error class. -/
theorem C3_render_messages_witness :
    (c3Response.success = false ∨ c3Response.info.next = none) ∧
    postProcess c3Response true (some [DomNode.text "old"]) =
      { navigatedTo := none,
        messageListAfter := some
          [DomNode.element "li" [AJAXForm.successCSSClass] [DomNode.text "[SUCCESS_SAVED] Saved"],
           DomNode.element "li" [AJAXForm.errorCSSClass] [DomNode.text "[VALIDATION_NAME] Required"]] } :=
  ⟨Or.inl rfl, C3_render_messages c3Response [DomNode.text "old"] (Or.inl rfl)⟩

/-- C4: for every envelope with success true and a non-null info.next,
when the hook signals continue, submit navigates to that URL and performs
no message rendering: the message list, present or not, is left
unchanged. -/
theorem C4_navigate (response : APIResponse) (u : String)
    (messageList : Option (List DomNode))
    (hs : response.success = true) (hn : response.info.next = some u) :
    postProcess response true messageList =
      { navigatedTo := some u, messageListAfter := messageList } := by
  unfold postProcess
  simp [hs, hn]

/-- Concrete successful envelope with a redirect target, for the C4
witness. -/
def c4Response : APIResponse :=
  { success := true, info := { next := some "/done" }, messages := [] }

/-- C4 witnessed at the concrete envelope of the spec: the browser
navigates to /done and the message list keeps its prior child. -/
theorem C4_navigate_witness :
    c4Response.success = true ∧ c4Response.info.next = some "/done" ∧
    postProcess c4Response true (some [DomNode.text "old"]) =
      { navigatedTo := some "/done", messageListAfter := some [DomNode.text "old"] } :=
  ⟨rfl, rfl, C4_navigate c4Response "/done" (some [DomNode.text "old"]) rfl rfl⟩

/-- C5: for every envelope and every message list state, when afterSubmit
returns a falsy result submit stops: no navigation happens and the message
list is not touched, irrespective of the envelope contents. -/
theorem C5_hook_abort (response : APIResponse) (messageList : Option (List DomNode)) :
    postProcess response false messageList =
      { navigatedTo := none, messageListAfter := messageList } := rfl

/-- C6: for every form whose reflected method is get, the issued request
URL is exactly the action string, then a literal question mark, then the
urlencoded serialized fields (space encoded as plus), and the request
carries no body. -/
theorem C6_get_request (form : FormState) (h : formMethod form.methodAttr = "get") :
    submitRequest form =
      some { url := form.action ++ "?" ++ serializeParams form.fields,
             method := "GET",
             credentials := form.credentialsModeAttr.getD AJAXForm.defaultCredentialsMode,
             body := none } := by
  unfold submitRequest
  rw [h, if_pos rfl]

/-- Concrete GET form of the spec example, for the C6 witness. -/
def c6Form : FormState :=
  { methodAttr := some "get", action := "/search", fields := [("q", "a b")],
    credentialsModeAttr := none }

/-- C6 witnessed at the spec example: the GET form with field q holding the
value a b and action /search issues the URL /search?q=a+b with no body. -/
theorem C6_get_request_witness :
    formMethod c6Form.methodAttr = "get" ∧
    submitRequest c6Form =
      some { url := "/search?q=a+b", method := "GET",
             credentials := "same-origin", body := none } :=
  ⟨rfl, C6_get_request c6Form rfl⟩

/-- C7: the HTTP method is determined case-insensitively from the method
attribute: any two method attribute values that agree after ASCII
lowercasing (in particular a value and its lowercase form) make submit
build the same request, so the same branch is selected. -/
theorem C7_method_case_insensitive (action : String) (fields : List (String × String))
    (credentialsModeAttr : Option String) (m₁ m₂ : String)
    (h : lowerString m₁ = lowerString m₂) :
    submitRequest ⟨some m₁, action, fields, credentialsModeAttr⟩ =
      submitRequest ⟨some m₂, action, fields, credentialsModeAttr⟩ := by
  simp only [submitRequest, formMethod, h]

/-- C7 witnessed at the uppercase value GET: it selects the same branch
and yields the same request as the lowercase value get. -/
theorem C7_method_case_insensitive_witness :
    lowerString "GET" = lowerString "get" ∧
    submitRequest ⟨some "GET", "/search", [("q", "a b")], none⟩ =
      submitRequest ⟨some "get", "/search", [("q", "a b")], none⟩ :=
  ⟨rfl, C7_method_case_insensitive "/search" [("q", "a b")] none "GET" "get" rfl⟩

/-- C8: for every submission that issues a request (GET or POST branch),
the credentials mode of the request is the per-form data attribute when
present and otherwise the process-wide default, which is same-origin. -/
theorem C8_credentials_resolution (form : FormState) (req : Request)
    (h : submitRequest form = some req) :
    req.credentials = form.credentialsModeAttr.getD AJAXForm.defaultCredentialsMode ∧
    AJAXForm.defaultCredentialsMode = "same-origin" := by
  refine ⟨?_, rfl⟩
  unfold submitRequest at h
  split at h
  · cases h; rfl
  · split at h
    · cases h; rfl
    · cases h

/-- Concrete POST form with a data-credentials-mode override, for the C8
witness. -/
def c8Form : FormState :=
  { methodAttr := some "post", action := "/api", fields := [("x", "1")],
    credentialsModeAttr := some "include" }

/-- Request issued for c8Form. -/
def c8Req : Request :=
  { url := "/api", method := "POST", credentials := "include", body := some [("x", "1")] }

/-- C8 witnessed at a form overriding the credentials mode to include: the
issued request carries include rather than the same-origin default. -/
theorem C8_credentials_resolution_witness :
    submitRequest c8Form = some c8Req ∧ c8Req.credentials = "include" :=
  ⟨rfl, (C8_credentials_resolution c8Form c8Req rfl).1⟩

/-- C9: for every envelope and every initial message list content, running
the clear-then-render step twice in a row with the same envelope leaves the
list with exactly the contents of running it once: the clearing step
discards whatever the first run produced, so no items are duplicated. -/
theorem C9_render_idempotent (response : APIResponse) (children : List DomNode) :
    clearThenRender response.messages (clearThenRender response.messages children) =
      clearThenRender response.messages children := rfl

/-- C10: for every message, the rendered list item holds exactly one child
and that child is a text node (the model of document.createTextNode)
carrying the interpolated string verbatim: its character sequence is a
literal open bracket, then the code characters unchanged, then a close
bracket and a space, then the message characters unchanged, so markup-like
characters in the code or the message stay text and are never parsed as
HTML. -/
theorem C10_text_node_verbatim (m : Message) :
    (∃ cls, renderMessage m =
      DomNode.element "li" [cls] [DomNode.text ("[" ++ m.code ++ "] " ++ m.message)]) ∧
    ("[" ++ m.code ++ "] " ++ m.message).toList =
      '[' :: (m.code.toList ++ (']' :: (' ' :: m.message.toList))) := by
  refine ⟨⟨_, rfl⟩, ?_⟩
  simp [String.toList, String.data_append]
